import Mathlib

/-!
Verification of the pycollo scaling and quadrature subsystems.

The Python source (src/pycollo/scaling.py) is shallowly embedded over ℚ:
NumPy float vectors become lists of rationals, elementwise NumPy operations
become `List.zipWith`/`List.map`, and Python exception behaviour becomes
`Except`-valued functions and explicit error components.
-/

namespace Pycollo

/-! ## Basis scaling: `Scaling._generate_bounds`

Python (scaling.py, lines 88-93):
```
scales = (x_u - x_l)
shifts = x_u - (x_u - x_l) / 2
```
We embed the per-entry computation (the NumPy version is elementwise).
-/

/-- Embedding of `Scaling._generate_bounds`, per bounds entry: given lower
bound `l` and upper bound `u`, returns `(scale, shift)` with
`scale = u - l` and `shift = u - (u - l) / 2`. -/
def generate_bounds (l u : ℚ) : ℚ × ℚ :=
  (u - l, u - (u - l) / 2)

/-! ## Iteration scaling affine maps: `IterationScaling.scale_x` / `unscale_x`

Python (scaling.py, lines 167-179):
```
self._V_inv = np.reciprocal(self._V)
def scale_x(self, x):       return np.multiply(self._V_inv, (x - self._r))
def unscale_x(self, x_tilde): return np.multiply(self._V, x_tilde) + self._r
```
-/

/-- Embedding of `np.reciprocal` applied to the stretch vector `_V`
in `IterationScaling._initialise_variable_scaling`. -/
def reciprocalList (V : List ℚ) : List ℚ :=
  V.map (fun v => v⁻¹)

/-- Embedding of `IterationScaling.scale_x`: elementwise
`x_tilde = V_inv * (x - r)` where `V_inv` is the precomputed reciprocal
of the stretch vector `V`. -/
def scale_x (V r x : List ℚ) : List ℚ :=
  List.zipWith (fun vinv d => vinv * d) (reciprocalList V) (List.zipWith (fun a b => a - b) x r)

/-- Embedding of `IterationScaling.unscale_x`: elementwise
`x = V * x_tilde + r`. -/
def unscale_x (V r xt : List ℚ) : List ℚ :=
  List.zipWith (fun a b => a + b) (List.zipWith (fun v y => v * y) V xt) r

/-- One entry of `scale_x`: the normalized value `V⁻¹ * (x - r)`. -/
def scale_x_entry (V r x : ℚ) : ℚ :=
  V⁻¹ * (x - r)

/-! ## Claims C1-C3 -/

/-- C1: for finite bounds with `l < u`, the bounds method returns
`scale = u - l` and `shift = u - scale/2`; the normalized value
`(raw - shift)/scale` maps `[l, u]` onto `[-0.5, 0.5]`; in particular
bounds `l = 2, u = 10` yield `scale = 8, shift = 6` and the midpoint `6`
normalizes to `0`. -/
theorem C1_bounds_method (l u : ℚ) (h : l < u) :
    (generate_bounds l u).1 = u - l ∧
    (generate_bounds l u).2 = u - (u - l) / 2 ∧
    (∀ x : ℚ, l ≤ x → x ≤ u →
      -(1/2) ≤ scale_x_entry (generate_bounds l u).1 (generate_bounds l u).2 x ∧
      scale_x_entry (generate_bounds l u).1 (generate_bounds l u).2 x ≤ 1/2) ∧
    (∀ y : ℚ, -(1/2) ≤ y → y ≤ 1/2 →
      ∃ x : ℚ, l ≤ x ∧ x ≤ u ∧
        scale_x_entry (generate_bounds l u).1 (generate_bounds l u).2 x = y) ∧
    generate_bounds 2 10 = (8, 6) ∧
    scale_x_entry 8 6 6 = 0 := by
  have hne : u - l ≠ 0 := sub_ne_zero.mpr (ne_of_gt h)
  have hpos : (0:ℚ) < u - l := sub_pos.mpr h
  refine ⟨rfl, rfl, ?_, ?_, by norm_num [generate_bounds], by norm_num [scale_x_entry]⟩
  · intro x hlx hxu
    simp only [generate_bounds, scale_x_entry]
    have key : (u - l)⁻¹ * (x - (u - (u - l) / 2)) = (x - l) / (u - l) - 1/2 := by
      field_simp
      ring
    rw [key]
    have h0 : (0:ℚ) ≤ (x - l) / (u - l) := div_nonneg (by linarith) (le_of_lt hpos)
    have h1 : (x - l) / (u - l) ≤ 1 := (div_le_one hpos).mpr (by linarith)
    constructor
    · linarith
    · linarith
  · intro y hy1 hy2
    refine ⟨(u - (u - l) / 2) + y * (u - l), ?_, ?_, ?_⟩
    · nlinarith
    · nlinarith
    · simp only [generate_bounds, scale_x_entry]
      field_simp

/-- Closed witness for C1 at bounds `l = 2, u = 10`. -/
theorem C1_bounds_method_witness :
    (2:ℚ) < 10 ∧
    ((generate_bounds 2 10).1 = 10 - 2 ∧
     (generate_bounds 2 10).2 = 10 - (10 - 2) / 2 ∧
     (∀ x : ℚ, 2 ≤ x → x ≤ 10 →
       -(1/2) ≤ scale_x_entry (generate_bounds 2 10).1 (generate_bounds 2 10).2 x ∧
       scale_x_entry (generate_bounds 2 10).1 (generate_bounds 2 10).2 x ≤ 1/2) ∧
     (∀ y : ℚ, -(1/2) ≤ y → y ≤ 1/2 →
       ∃ x : ℚ, 2 ≤ x ∧ x ≤ 10 ∧
         scale_x_entry (generate_bounds 2 10).1 (generate_bounds 2 10).2 x = y) ∧
     generate_bounds 2 10 = (8, 6) ∧
     scale_x_entry 8 6 6 = 0) :=
  ⟨by norm_num, C1_bounds_method 2 10 (by norm_num)⟩

/-- C2: with strictly positive stretch entries and matching lengths,
`scale_x` and `unscale_x` are exact elementwise affine inverses:
`unscale_x (scale_x x) = x` and `scale_x (unscale_x x) = x`. -/
theorem C2_scale_unscale_inverse (V r x : List ℚ)
    (hr : r.length = V.length) (hx : x.length = V.length)
    (hpos : ∀ v ∈ V, 0 < v) :
    unscale_x V r (scale_x V r x) = x ∧ scale_x V r (unscale_x V r x) = x := by
  induction V generalizing r x with
  | nil =>
    rw [List.length_nil, List.length_eq_zero] at hr hx
    subst hr; subst hx
    exact ⟨rfl, rfl⟩
  | cons v V ih =>
    match r, x with
    | [], _ => simp at hr
    | _, [] => simp at hx
    | rh :: rt, xh :: xt =>
      have hr2 : rt.length = V.length := by simpa using hr
      have hx2 : xt.length = V.length := by simpa using hx
      have hv : (0:ℚ) < v := hpos v (List.mem_cons_self v V)
      have hv0 : v ≠ 0 := ne_of_gt hv
      have htail := ih rt xt hr2 hx2 (fun w hw => hpos w (List.mem_cons_of_mem v hw))
      constructor
      · show unscale_x (v :: V) (rh :: rt) (scale_x (v :: V) (rh :: rt) (xh :: xt))
            = xh :: xt
        simp only [scale_x, unscale_x, reciprocalList, List.map_cons,
          List.zipWith_cons_cons, List.cons.injEq]
        exact ⟨by field_simp, htail.1⟩
      · show scale_x (v :: V) (rh :: rt) (unscale_x (v :: V) (rh :: rt) (xh :: xt))
            = xh :: xt
        simp only [scale_x, unscale_x, reciprocalList, List.map_cons,
          List.zipWith_cons_cons, List.cons.injEq]
        exact ⟨by field_simp, htail.2⟩

/-- Closed witness for C2 at `V = [2, 4]`, `r = [1, -1]`, `x = [5, 7]`. -/
theorem C2_scale_unscale_inverse_witness :
    ([1, -1] : List ℚ).length = ([2, 4] : List ℚ).length ∧
    ([5, 7] : List ℚ).length = ([2, 4] : List ℚ).length ∧
    (∀ v ∈ ([2, 4] : List ℚ), 0 < v) ∧
    (unscale_x [2, 4] [1, -1] (scale_x [2, 4] [1, -1] [5, 7]) = [5, 7] ∧
     scale_x [2, 4] [1, -1] (unscale_x [2, 4] [1, -1] [5, 7]) = [5, 7]) :=
  ⟨by decide, by decide, by decide,
   C2_scale_unscale_inverse [2, 4] [1, -1] [5, 7] (by decide) (by decide) (by decide)⟩

/-- C3 counterexample: on zero-width bounds `l = u = 5` the bounds method
returns `scale = 0, shift = 5`, not the claimed substitution
`scale = 1, shift = 0`. -/
theorem C3_counterexample :
    generate_bounds 5 5 = (0, 5) ∧ generate_bounds 5 5 ≠ ((1:ℚ), (0:ℚ)) := by
  constructor
  · norm_num [generate_bounds]
  · norm_num [generate_bounds]

/-- C3 amended: on zero-width bounds `l = u` the bounds method performs no
substitution: it returns `scale = 0` and `shift = u`, and the reciprocal of
the scales is then taken unguarded in
`IterationScaling._initialise_variable_scaling`. -/
theorem C3_zero_width_no_substitution (u : ℚ) :
    generate_bounds u u = (0, u) := by
  simp [generate_bounds]

/-! ## Objective and constraint scaling generation

Python (scaling.py):
```
def _generate(self):
    if self.iteration.number == 1:
        self._generate_first_iteration()
    else:
        use_update = self.optimal_control_problem.settings.update_scaling
        self._GENERATE_DISPATCHER[use_update]()

def _generate_first_iteration(self):
    self._w = 1.0
    self._W = self._calculate_constraint_scaling(self.iteration.guess_x)

def _generate_from_base(self):
    self._w = self._calculate_objective_scaling(self.iteration.guess_x)
    self._W = self._calculate_constraint_scaling(self.iteration.guess_x)

def _generate_from_previous(self):
    raise NotImplementedError
    ...

def _calculate_objective_scaling(self, x_guess):
    g = self.iteration._gradient_lambda(x_guess)
    g_norm = np.sqrt(np.sum(g**2))
    obj_scaling = 1 / g_norm
    return obj_scaling

def _calculate_constraint_scaling(self, x_guess):
    raise NotImplementedError
    ...
```
An objective gradient is a list of rationals; because `1 / sqrt (sum g**2)`
is in general irrational we track the SQUARE of the objective scale,
`w² = (Σ gᵢ²)⁻¹`, which is exact over ℚ and determines `w` (both are
nonnegative). Python exceptions become `Except` errors; attribute
assignments that happen before a raise become explicit state updates
that survive the error, exactly as the Python object keeps `self._w`. -/

/-- Errors of the scaling subsystem. `notImplemented` embeds Python's
`NotImplementedError`; `degenerateGradient` is the failure mode the spec
names for a zero objective gradient (no corresponding raise exists
anywhere in scaling.py). -/
inductive ScalingError where
  | notImplemented : ScalingError
  | degenerateGradient : ScalingError
deriving DecidableEq, Repr

/-- Squared 2-norm of an objective gradient: `np.sum(g**2)`. -/
def gNormSq (g : List ℚ) : ℚ :=
  (g.map (fun t => t * t)).sum

/-- Embedding of `IterationScaling._calculate_objective_scaling`, tracking
the squared scale: the Python body is straight-line with no raise and no
zero-gradient check, so it always succeeds, returning
`w² = (1 / sqrt (Σ gᵢ²))² = (Σ gᵢ²)⁻¹`. -/
def calculate_objective_scaling_sq (g : List ℚ) : Except ScalingError ℚ :=
  Except.ok (gNormSq g)⁻¹

/-- Embedding of `IterationScaling._calculate_constraint_scaling`: the first
statement of the Python body is `raise NotImplementedError`, so every call
fails before computing anything. -/
def calculate_constraint_scaling (_x_guess : List ℚ) : Except ScalingError (List ℚ) :=
  Except.error ScalingError.notImplemented

/-- Mutable attributes of an `IterationScaling` object that `_generate`
touches: the squared objective scale `self._w` (absent until assigned) and
whether the constraint scale `self._W` has been assigned. -/
structure IterState where
  wSq : Option ℚ
  Wset : Bool
deriving DecidableEq, Repr

/-- State of a freshly constructed `IterationScaling`: the constructor only
builds the mesh-expanded variable vectors; neither `_w` nor `_W` exists. -/
def initIterState : IterState :=
  { wSq := none, Wset := false }

/-- Embedding of `IterationScaling._generate`, dispatching on the iteration
number and the `update_scaling` setting; `g` is the objective gradient at
`guess_x` and `x_guess` the guess vector. Returns the object state after
the call together with the exception it escapes with, if any. -/
def generate (number : Nat) (update_scaling : Bool) (g x_guess : List ℚ)
    (s : IterState) : IterState × Option ScalingError :=
  if number = 1 then
    let s1 : IterState := { s with wSq := some 1 }
    match calculate_constraint_scaling x_guess with
    | Except.error e => (s1, some e)
    | Except.ok _ => ({ s1 with Wset := true }, none)
  else if update_scaling then
    (s, some ScalingError.notImplemented)
  else
    match calculate_objective_scaling_sq g with
    | Except.error e => (s, some e)
    | Except.ok w =>
      let s1 : IterState := { s with wSq := some w }
      match calculate_constraint_scaling x_guess with
      | Except.error e => (s1, some e)
      | Except.ok _ => ({ s1 with Wset := true }, none)

/-! ## Claims C4, C6, C7 -/

/-- C4 counterexample: on the zero gradient `[0, 0, 0]` the objective-scale
computation succeeds (Python returns the unguarded `1 / g_norm`, which is
IEEE `inf` for `g_norm = 0`); it does not fail with `DegenerateGradient`. -/
theorem C4_counterexample :
    calculate_objective_scaling_sq [0, 0, 0] = Except.ok 0 ∧
    Except.ok (0:ℚ) ≠ Except.error ScalingError.degenerateGradient := by
  constructor
  · show Except.ok (gNormSq [0, 0, 0])⁻¹ = Except.ok 0
    norm_num [gNormSq]
  · simp

/-- C4 amended: `_calculate_objective_scaling` contains no raise and no
zero-gradient guard: it succeeds on every gradient, and the guarded quantity
`Σ gᵢ²` is zero exactly when the gradient is the zero vector (in which case
the returned `1 / g_norm` is an unguarded division by zero, IEEE `inf`). -/
theorem C4_no_degenerate_gradient_check (g : List ℚ) :
    (∃ q : ℚ, calculate_objective_scaling_sq g = Except.ok q) ∧
    (gNormSq g = 0 ↔ ∀ t ∈ g, t = 0) := by
  refine ⟨⟨(gNormSq g)⁻¹, rfl⟩, ?_⟩
  induction g with
  | nil => simp [gNormSq]
  | cons a l ih =>
    simp only [gNormSq, List.map_cons, List.sum_cons, List.mem_cons] at *
    constructor
    · intro h t ht
      have ha : (0:ℚ) ≤ a * a := mul_self_nonneg a
      have hl : (0:ℚ) ≤ (l.map (fun t => t * t)).sum := by
        apply List.sum_nonneg
        intro q hq
        obtain ⟨t, _, rfl⟩ := List.mem_map.mp hq
        exact mul_self_nonneg t
      have ha0 : a * a = 0 := by linarith
      have hl0 : (l.map (fun t => t * t)).sum = 0 := by linarith
      rcases ht with rfl | ht
      · exact mul_self_eq_zero.mp ha0
      · exact (ih.mp hl0) t ht
    · intro h
      have ha : a = 0 := h a (Or.inl rfl)
      have hl : (l.map (fun t => t * t)).sum = 0 :=
        ih.mpr (fun t ht => h t (Or.inr ht))
      rw [ha, hl]
      ring

/-- C6 counterexample: for the first mesh iteration with objective gradient
`[3, 4]` (so `‖∇J‖₂ = 5` and `1/‖∇J‖₂² = 1/25`), `_generate` sets
`w = 1.0` unconditionally, and `1 ≠ 1/25`, so `w ≠ 1/‖∇J(x_guess)‖₂`. -/
theorem C6_counterexample :
    (generate 1 false [3, 4] [] initIterState).1.wSq = some 1 ∧
    gNormSq [3, 4] = 25 ∧
    some (1:ℚ) ≠ some ((25:ℚ)⁻¹) := by
  refine ⟨rfl, by norm_num [gNormSq], by norm_num⟩

/-- C6 amended: only `_generate_from_base` (iteration number ≠ 1 with
`update_scaling` disabled) sets the objective scale to
`w = 1/‖∇J(x_guess)‖₂` (tracked squared: `w² = (Σ gᵢ²)⁻¹`); the first
iteration instead sets `w = 1.0` unconditionally. In both paths the
subsequent constraint-scaling call raises `NotImplementedError`. -/
theorem C6_objective_scale_paths (number : Nat) (g x_guess : List ℚ)
    (s : IterState) (h : number ≠ 1) :
    (generate number false g x_guess s).1.wSq = some (gNormSq g)⁻¹ ∧
    (generate 1 false g x_guess s).1.wSq = some 1 ∧
    (generate number false g x_guess s).2 = some ScalingError.notImplemented := by
  refine ⟨?_, ?_, ?_⟩
  · simp [generate, h, calculate_objective_scaling_sq, calculate_constraint_scaling]
  · simp [generate, calculate_constraint_scaling]
  · simp [generate, h, calculate_objective_scaling_sq, calculate_constraint_scaling]

/-- Closed witness for C6 amended at iteration number 2, gradient `[3, 4]`. -/
theorem C6_objective_scale_paths_witness :
    (2 ≠ 1) ∧
    ((generate 2 false [3, 4] [] initIterState).1.wSq = some (gNormSq [3, 4])⁻¹ ∧
     (generate 1 false [3, 4] [] initIterState).1.wSq = some 1 ∧
     (generate 2 false [3, 4] [] initIterState).2 = some ScalingError.notImplemented) :=
  ⟨by decide, C6_objective_scale_paths 2 [3, 4] [] initIterState (by decide)⟩

/-- C7: every path of `_generate` (first iteration, recompute from base,
blend with history) escapes with `NotImplementedError` — the first two
because `_calculate_constraint_scaling` raises before computing anything,
the third because `_generate_from_previous` raises immediately — so `_W` is
never assigned and only the constructor-built variable scaling survives. -/
theorem C7_generate_always_raises (number : Nat) (update_scaling : Bool)
    (g x_guess : List ℚ) (s : IterState) :
    (generate number update_scaling g x_guess s).2
      = some ScalingError.notImplemented ∧
    (generate number update_scaling g x_guess s).1.Wset = s.Wset := by
  by_cases h1 : number = 1
  · subst h1
    refine ⟨?_, ?_⟩ <;>
      simp [generate, calculate_constraint_scaling]
  · cases update_scaling with
    | true => refine ⟨?_, ?_⟩ <;> simp [generate, h1]
    | false =>
      refine ⟨?_, ?_⟩ <;>
        simp [generate, h1, calculate_objective_scaling_sq,
          calculate_constraint_scaling]

/-! ## Identity scaling maps: `scale_J`, `scale_c`, `scale_sigma`, `scale_lagrange`

Python (scaling.py, lines 181-205): each method returns its argument
unchanged; the lines that would apply `self._w` or `self._sW` are commented
out. The embeddings take the object state to mirror the bound methods. -/

/-- Embedding of `IterationScaling.scale_J`: `J_tilde = J`. -/
def scale_J (_self : IterState) (J : ℚ) : ℚ := J

/-- Embedding of `IterationScaling.scale_c`: `c_tilde = c`. -/
def scale_c (_self : IterState) (c : List ℚ) : List ℚ := c

/-- Embedding of `IterationScaling.scale_sigma`: `sigma_prime = sigma_tilde`. -/
def scale_sigma (_self : IterState) (sigma_tilde : ℚ) : ℚ := sigma_tilde

/-- Embedding of `IterationScaling.scale_lagrange`:
`lagrange_prime = lagrange_tilde`. -/
def scale_lagrange (_self : IterState) (lagrange_tilde : List ℚ) : List ℚ :=
  lagrange_tilde

/-- C8: `scale_J`, `scale_c`, `scale_sigma` and `scale_lagrange` are identity
maps, independent of the object state — in particular independent of any
objective scale `w` or constraint scale `W` the state may hold, which are
therefore never applied. -/
theorem C8_identity_scaling (s s2 : IterState) (J sigma : ℚ)
    (c lagrange : List ℚ) :
    scale_J s J = J ∧
    scale_c s c = c ∧
    scale_sigma s sigma = sigma ∧
    scale_lagrange s lagrange = lagrange ∧
    scale_J s J = scale_J s2 J ∧
    scale_c s c = scale_c s2 c ∧
    scale_sigma s sigma = scale_sigma s2 sigma ∧
    scale_lagrange s lagrange = scale_lagrange s2 lagrange :=
  ⟨rfl, rfl, rfl, rfl, rfl, rfl, rfl, rfl⟩

/-! ## Mesh expansion: `IterationScaling._expand_x_to_mesh`

Python (scaling.py, lines 233-262): per phase,
```
scaling[y_slice] = np.repeat(base_scaling[ocp_y_slice], N)
scaling[u_slice] = np.repeat(base_scaling[ocp_u_slice], N)
scaling[q_slice] = base_scaling[ocp_q_slice]
scaling[t_slice] = base_scaling[ocp_t_slice]
```
and finally `scaling[s_slice] = base_scaling[ocp_s_slice]`.
`np.repeat(v, N)` repeats each entry of `v` N times, contiguously. -/

/-- Modelled from the spec: the backend slice objects
(`phase_y_var_slices`, `iteration.y_slices`, ...) are built outside
scaling.py and are not under src/; per the spec, each phase's block of the
iteration vector holds its state-node values, then control-node values, then
integral and time variables, followed globally by the static parameters.
One phase's slice of the basis scaling vector: per-state entries `y`,
per-control entries `u`, integral entries `q`, time entries `t`, and the
phase's collocation-node count `N`. -/
structure PhaseBasis where
  y : List ℚ
  u : List ℚ
  q : List ℚ
  t : List ℚ
  N : Nat
deriving DecidableEq, Repr

/-- One phase of `_expand_x_to_mesh`: `np.repeat(y, N) ++ np.repeat(u, N)
++ q ++ t` — each state and control entry becomes a contiguous constant
block of length `N`; integral and time entries stay single. -/
def expandPhase (p : PhaseBasis) : List ℚ :=
  (p.y.map (fun v => List.replicate p.N v)).flatten ++
    (p.u.map (fun v => List.replicate p.N v)).flatten ++ p.q ++ p.t

/-- Embedding of `IterationScaling._expand_x_to_mesh`: expand every phase
and append the static-parameter entries `s` unchanged. -/
def expand_x_to_mesh (phases : List PhaseBasis) (s : List ℚ) : List ℚ :=
  (phases.map expandPhase).flatten ++ s

/-- Length of `np.repeat(v, N)`: each of the `v.length` entries contributes
a block of `N` copies. -/
theorem join_map_replicate_length (ys : List ℚ) (N : Nat) :
    ((ys.map (fun v => List.replicate N v)).flatten).length = ys.length * N := by
  induction ys with
  | nil => simp
  | cons a l ih =>
    simp only [List.map_cons, List.flatten_cons, List.length_append,
      List.length_replicate, List.length_cons, ih]
    ring

/-- C5: `_expand_x_to_mesh` keeps integral/time/static entries single
(`expandPhase` of a state-and-control-free phase is `q ++ t`), gives each
state entry a contiguous constant block of length `N`
(`expandPhase ⟨[a, b], [], [], [], N⟩ = replicate N a ++ replicate N b`),
has length `(|y| + |u|) * N + |q| + |t|` per phase, and on the two-segment
mesh `N = [3, 4]` broadcasts a single-state basis scale `v` to the
length-7 vector `replicate 3 v ++ replicate 4 v`, two contiguous constant
sub-blocks of lengths 3 and 4. -/
theorem C5_expand_to_mesh_blocks :
    (∀ qs ts N, expandPhase ⟨[], [], qs, ts, N⟩ = qs ++ ts) ∧
    (∀ (a b : ℚ) (N : Nat), expandPhase ⟨[a, b], [], [], [], N⟩
      = List.replicate N a ++ List.replicate N b) ∧
    (∀ p : PhaseBasis, (expandPhase p).length
      = (p.y.length + p.u.length) * p.N + p.q.length + p.t.length) ∧
    (∀ v : ℚ, expand_x_to_mesh [⟨[v], [], [], [], 3⟩, ⟨[v], [], [], [], 4⟩] []
      = List.replicate 3 v ++ List.replicate 4 v) ∧
    (∀ v : ℚ, (expand_x_to_mesh [⟨[v], [], [], [], 3⟩, ⟨[v], [], [], [], 4⟩]
      []).length = 7) := by
  refine ⟨?_, ?_, ?_, ?_, ?_⟩
  · intro qs ts N
    simp [expandPhase]
  · intro a b N
    simp [expandPhase]
  · intro p
    simp only [expandPhase, List.length_append, join_map_replicate_length]
    ring
  · intro v
    simp [expand_x_to_mesh, expandPhase]
  · intro v
    simp [expand_x_to_mesh, expandPhase]

/-! ## Cross-iteration blending weights: `IterationScaling._generate_from_previous`

Python (scaling.py, lines 305-313; the lines sit after an unconditional
`raise NotImplementedError`, see C7):
```
weights = np.array([alpha * (1 - alpha)**i for i, _ in enumerate(J_scales)])
weights = np.flip(weights)
weights[0] /= alpha
```
with `len(J_scales) = k`, the number of iterations completed so far. -/

/-- Embedding of the blending-weight computation for `k` iterations and
decay factor `alpha`: the unnormalized weights `alpha * (1 - alpha)^i` for
`i = 0, ..., k-1`, flipped (most recent last), with the first (earliest)
weight divided by `alpha`. -/
def blend_weights (k : Nat) (alpha : ℚ) : List ℚ :=
  match ((List.range k).map (fun i => alpha * (1 - alpha) ^ i)).reverse with
  | [] => []
  | w :: rest => w / alpha :: rest

/-- Geometric sum of the unnormalized weights:
`Σ_{i<k} alpha (1 - alpha)^i = 1 - (1 - alpha)^k`. -/
theorem sum_map_range_geom (alpha : ℚ) (k : Nat) :
    ((List.range k).map (fun i => alpha * (1 - alpha) ^ i)).sum
      = 1 - (1 - alpha) ^ k := by
  induction k with
  | zero => simp
  | succ j ih =>
    rw [List.range_succ, List.map_append, List.sum_append, ih]
    simp only [List.map_cons, List.map_nil, List.sum_cons, List.sum_nil]
    rw [pow_succ]
    ring

/-- C9: for `k ≥ 1` completed iterations and decay `alpha ∈ (0, 1)`, the
blending weights `alpha (1 - alpha)^{k-i}` with the earliest weight divided
by `alpha` sum exactly to 1 over the rationals. -/
theorem C9_blend_weights_sum_one (k : Nat) (alpha : ℚ)
    (hk : 1 ≤ k) (h0 : 0 < alpha) (_h1 : alpha < 1) :
    (blend_weights k alpha).sum = 1 := by
  obtain ⟨j, rfl⟩ : ∃ j, k = j + 1 := ⟨k - 1, (Nat.succ_pred_eq_of_pos hk).symm⟩
  have ha : alpha ≠ 0 := ne_of_gt h0
  have hrev : ((List.range (j + 1)).map
      (fun i => alpha * (1 - alpha) ^ i)).reverse
      = alpha * (1 - alpha) ^ j
        :: ((List.range j).map (fun i => alpha * (1 - alpha) ^ i)).reverse := by
    rw [List.range_succ, List.map_append, List.reverse_append]
    simp
  rw [blend_weights, hrev]
  simp only [List.sum_cons, List.sum_reverse, sum_map_range_geom]
  field_simp

/-- Closed witness for C9 at `k = 3`, `alpha = 4/5`: the weights are
`[1/25, 4/25, 4/5]` and sum to 1. -/
theorem C9_blend_weights_sum_one_witness :
    1 ≤ 3 ∧ (0:ℚ) < 4/5 ∧ (4:ℚ)/5 < 1 ∧ (blend_weights 3 (4/5)).sum = 1 :=
  ⟨by norm_num, by norm_num, by norm_num,
   C9_blend_weights_sum_one 3 (4/5) (by norm_num) (by norm_num) (by norm_num)⟩

/-! ## Radau quadrature nodes and weights -/

/-- Modelled from the spec: the quadrature module (`pycollo.quadrature`)
is not under src/; only its test, src/test_quadrature.py, is. The test
pins `quadrature.quadrature_point(n)` at orders 3, 4 and 8 to the decimal
fixtures below (the test compares after rounding to 3 decimal places; the
spec states the first node is -1 exactly). Orders outside the fixtures are
unmodelled (`none`). -/
def radau_points : Nat → Option (List ℚ)
  | 3 => some [-1, 0.333333333333333, 1]
  | 4 => some [-1, -0.289897948556636, 0.689897948556636, 1]
  | 8 => some [-1, -0.853891342639482, -0.538467724060109, -0.117343037543100,
               0.326030619437691, 0.703842800663031, 0.941367145680430, 1]
  | _ => none

/-- Modelled from the spec: weight fixtures of src/test_quadrature.py for
`quadrature.quadrature_weight(n)` at orders 3, 4 and 8 — the classical
Radau weights divided by 2, the halving convention the test fixes; a final
zero weight sits on the appended right endpoint. -/
def radau_weights : Nat → Option (List ℚ)
  | 3 => some ([0.500000000000000, 1.50000000000000, 0.0].map (fun w => w / 2))
  | 4 => some ([0.222222222222222, 1.02497165237684, 0.752806125400934,
                0.0].map (fun w => w / 2))
  | 8 => some ([0.0408163265306122, 0.239227489225312, 0.380949873644231,
                0.447109829014567, 0.424703779005956, 0.318204231467302,
                0.148988471112020, 0.0].map (fun w => w / 2))
  | _ => none

/-- C10 counterexample: at order 3 the pinned Radau node sequence is
`[-1, 0.333..., 1]`, containing BOTH endpoints of `[-1, 1]` (not exactly
one), and the pinned weights `[0.25, 0.75, 0]` sum to 1, not 2. -/
theorem C10_counterexample :
    radau_points 3 = some [-1, 0.333333333333333, 1] ∧
    ((radau_points 3).getD []).contains (-1) = true ∧
    ((radau_points 3).getD []).contains 1 = true ∧
    ((radau_weights 3).getD []).sum = 1 ∧
    (1:ℚ) ≠ 2 := by
  refine ⟨rfl, ?_, ?_, ?_, by norm_num⟩
  · simp [radau_points, List.contains_eq_any_beq]
  · simp [radau_points, List.contains_eq_any_beq]
  · show ([(0.500000000000000 : ℚ), 1.50000000000000,
      0.0].map (fun w => w / 2)).sum = 1
    norm_num

/-- C10 amended: at every order pinned by the test fixture (3, 4 and 8),
the Radau node sequence starts with -1 exactly and ends with +1 — both
endpoints of `[-1, 1]` appear, the right one carrying weight 0 — and the
halved weights sum to 1, not 2 (exactly at order 3; within the fixture's
3-decimal rounding at orders 4 and 8). -/
theorem C10_radau_pinned_orders :
    (((radau_points 3).getD []).head? = some (-1) ∧
     ((radau_points 3).getD []).getLast? = some 1 ∧
     ((radau_weights 3).getD []).getLast? = some 0 ∧
     |((radau_weights 3).getD []).sum - 1| ≤ 1/1000) ∧
    (((radau_points 4).getD []).head? = some (-1) ∧
     ((radau_points 4).getD []).getLast? = some 1 ∧
     ((radau_weights 4).getD []).getLast? = some 0 ∧
     |((radau_weights 4).getD []).sum - 1| ≤ 1/1000) ∧
    (((radau_points 8).getD []).head? = some (-1) ∧
     ((radau_points 8).getD []).getLast? = some 1 ∧
     ((radau_weights 8).getD []).getLast? = some 0 ∧
     |((radau_weights 8).getD []).sum - 1| ≤ 1/1000) := by
  refine ⟨⟨rfl, rfl, ?_, ?_⟩, ⟨rfl, rfl, ?_, ?_⟩, ⟨rfl, rfl, ?_, ?_⟩⟩ <;>
    simp only [radau_weights, Option.getD_some, List.map_cons, List.map_nil,
      List.getLast?_cons, List.getLast?_nil, List.sum_cons, List.sum_nil] <;>
    norm_num [abs_le]

end Pycollo
